import Mathlib

/-!
# Shallow embedding of `wx-login-middleware`'s `src/core/login.rs`

The login orchestrator (`WxLogin::handle_login` and `WxLogin::authenticate`)
is embedded here.  Rust strings are modelled as `List Char` (named `Str`),
bytes as `Nat`, and fallible computations as `Except`.

The collaborators that the orchestrator calls but whose code is not part of
the files under study — the `Authority` (in `core/security.rs`), the
configuration type (`core/config.rs`), the base64 codec (the `tiny_crypto`
crate) and the outbound HTTP exchange (`reqwest`) — are passed in as explicit
parameters (`Env`, `AuthorityModel`), so theorems quantify over their
behaviour; where the spec pins their behaviour down (the replay-window check
inside `Authority::auth_client_sig`, the uniform client reporting of
authentication errors) a definition modelled from the spec is provided and
marked as such in its doc comment.
-/

/-- Rust `&str` / `String`, modelled as a list of characters. -/
abbrev Str := List Char

/-- The fixed user-safe message constant `LOGIN_FAIL_MSG` of `login.rs`. -/
def LOGIN_FAIL_MSG : Str := "登录验证失败".toList

/-- The constant `AUTH_FAIL_MSG` of `login.rs` (used by the middleware layer
when reporting authentication failures to the client). -/
def AUTH_FAIL_MSG : Str := "登录会话验证失败".toList

/-- Modelled from the spec: `crate::core::security::Error` (the opaque error
kind of the `authenticate` path, not under `src/`) carries only an unsegmented
detail string; `login.rs` builds it from string literals and `format!` output,
so it is modelled as the message string itself. -/
abbrev Error := Str

/-- Modelled from the spec: the per-application configuration entry of
`core/config.rs` (not under `src/`); `login.rs` uses only its provider
`secret` (read as `app_info.secret.0`). -/
structure AppInfo where
  secret : Str
  deriving Repr, DecidableEq

/-- Modelled from the spec: `core/config.rs`'s `Config` (not under `src/`);
`login.rs` reads `app_map` (appid → application identity, here an association
list standing for the read-only map), `auth_sig` (signature-required policy
flag) and `sig_valid_secs` (validity window in seconds). -/
structure Config where
  app_map : List (Str × AppInfo)
  auth_sig : Bool
  sig_valid_secs : Nat
  deriving Repr, DecidableEq

/-- `HashMap::get` on the read-only application map. -/
def lookupApp : List (Str × AppInfo) → Str → Option AppInfo
  | [], _ => none
  | (k, v) :: rest, key => if k = key then some v else lookupApp rest key

/-- The `ClientSession` produced by `Authority::make_client_session`:
`login.rs` reads its `sess_token` and `sess_key` components. -/
structure ClientSession where
  sess_token : Str
  sess_key : Str
  deriving Repr, DecidableEq

/-- `core::security::ServerSession` (re-exported by `login.rs` as `Secret`):
`authenticate` reads only its `client_sess_key` byte component. -/
structure Secret where
  client_sess_key : List Nat
  deriving Repr, DecidableEq

/-- The success result of `handle_login` (`WxLoginOk`). -/
structure WxLoginOk where
  openid : Str
  stoken : Str
  skey : Str
  deriving Repr, DecidableEq

/-- The failure result of `handle_login` (`WxLoginErr`). -/
structure WxLoginErr where
  status : Nat
  code : Str
  message : Str
  detail : Str
  deriving Repr, DecidableEq

/-- The inner value of the authentication result (`WxLoginInfoInner`; the Rust
`WxLoginInfo` wraps it in an `Arc` for shared read-only ownership, which has
no observable content beyond the inner value). -/
structure WxLoginInfoInner where
  appid : Str
  openid : Str
  secret : Secret
  sig_authed : Bool
  deriving Repr, DecidableEq

/-- The capability contract of `Authority` (in `core/security.rs`, not under
`src/`) together with the ambient effects the orchestrator depends on: key
derivation (`make_client_session`, parameterised over the application identity
given to `Authority::new`), session verification (`auth_client_session`), the
MAC check inside signature verification (`sig_verify`), the single clock read
of a signature check (`now_ms`, milliseconds) and the opaque error produced
when signature verification fails (`sig_fail_err`).  Theorems quantify over
this structure, so they hold for every behaviour of the external
collaborator. -/
structure AuthorityModel where
  make_client_session : AppInfo → Str → List Nat → ClientSession
  auth_client_session : AppInfo → Str → Str → Except Error Secret
  sig_verify : AppInfo → Str → Str → Str → Str → Str → Bool
  now_ms : Nat
  sig_fail_err : Error

/-- The two failure classes of the provider exchange: `send()` failure
(transport) and `json()` failure (response shape), each carrying the
underlying error's display text. -/
inductive ExchangeErr where
  | callFail (e : Str)
  | respFail (e : Str)
  deriving Repr, DecidableEq

/-- `proto::Code2SessionResponse`: the deserialized provider response. -/
structure Code2SessionResponse where
  session_key : Str
  openid : Str
  unionid : Option Str
  deriving Repr, DecidableEq

/-- The ambient collaborators of the orchestrator: the provider exchange
(appid, secret, code ↦ response), the base64 codec of `tiny_crypto`
(`from_text` decodes text to bytes, `to_text` encodes bytes to text) and the
Authority. -/
structure Env where
  exchange : Str → Str → Str → Except ExchangeErr Code2SessionResponse
  b64_from_text : Str → Except Str (List Nat)
  b64_to_text : List Nat → Str
  authority : AuthorityModel

/-- The `err_resp` helper of `login.rs`: builds a `WxLoginErr` with the fixed
user-safe message and the underlying error text as detail. -/
def err_resp (status : Nat) (code : Str) (e : Str) : WxLoginErr :=
  { status := status, code := code, message := LOGIN_FAIL_MSG, detail := e }

/-- Rust `str::split(':')` : splits on every occurrence of the delimiter,
yielding `n + 1` (possibly empty) pieces for `n` delimiters. -/
def splitColon : Str → List Str
  | [] => [[]]
  | c :: rest =>
    if c = ':' then [] :: splitColon rest
    else
      match splitColon rest with
      | [] => [[c]]
      | p :: ps => (c :: p) :: ps

/-- itertools `Itertools::next_tuple::<(_, _, _, _)>()` on the split iterator:
takes the first four items when at least four exist (any further items are
left unconsumed), `none` otherwise. -/
def nextTuple4 : List Str → Option (Str × Str × Str × Str)
  | a :: b :: c :: d :: _ => some (a, b, c, d)
  | _ => none

/-- The token decoder used by `authenticate` for both the session token and
the signature token: `s.split(":").next_tuple()`. -/
def decodeFields (s : Str) : Option (Str × Str × Str × Str) :=
  nextTuple4 (splitColon s)

/-- Rust `[_]::join(":")` on a list of strings. -/
def joinColon : List Str → Str
  | [] => []
  | [x] => x
  | x :: y :: xs => x ++ ':' :: joinColon (y :: xs)

/-- Decimal parse of the millisecond timestamp string (the numeric read of
`ts_ms_str` inside `Authority::auth_client_sig`). -/
def parseNatDec (s : Str) : Option Nat :=
  if s = [] then none
  else
    s.foldl
      (fun acc c =>
        acc.bind fun n => if c.isDigit then some (n * 10 + (c.toNat - 48)) else none)
      (some 0)

/-- Modelled from the spec: `Authority::auth_client_sig` (in
`core/security.rs`, not under `src/`).  Per the spec it verifies the signature
over the derived key material, the URI, the timestamp and the nonce, and "the
request is accepted only if `now − timestamp ≤ configured_validity_window`";
the caller-supplied replay predicate receives the elapsed duration (here in
milliseconds) and the nonce.  It succeeds exactly when the MAC check passes
and the predicate accepts; any failure yields the Authority's opaque
signature error. -/
def authClientSig (a : AuthorityModel) (app : AppInfo)
    (key_text uri ts_ms_str nonce_str sig_str : Str)
    (check : Nat → Str → Bool) : Except Error Unit :=
  match parseNatDec ts_ms_str with
  | none => .error a.sig_fail_err
  | some ts =>
    if a.sig_verify app key_text uri ts_ms_str nonce_str sig_str
        && check (a.now_ms - ts) nonce_str then
      .ok ()
    else
      .error a.sig_fail_err

/-- Modelled from the spec: the middleware layer that turns an `authenticate`
failure into a client response is not among the files under study; per the
spec, "Authentication errors are a single opaque kind; all causes … are
reported uniformly to avoid leaking which check failed", so the client-facing
report of every authentication error is the fixed `AUTH_FAIL_MSG`. -/
def clientAuthErrMessage (_e : Error) : Str := AUTH_FAIL_MSG

/-- `WxLogin::handle_login` (lines 74–111 of `login.rs`): application lookup,
provider exchange, base64 decode of the session key into exactly 16 bytes,
session derivation, and construction of the wire session token
`["ST1", appid, openid, sess_token].join(":")`. -/
def handle_login (cfg : Config) (env : Env) (appid code : Str) :
    Except WxLoginErr WxLoginOk :=
  match lookupApp cfg.app_map appid with
  | none =>
    .error { status := 401, code := "appid-not-found".toList,
             message := LOGIN_FAIL_MSG, detail := [] }
  | some app_info =>
    match env.exchange appid app_info.secret code with
    | .error (.callFail e) => .error (err_resp 500 "jscode2session-call-fail".toList e)
    | .error (.respFail e) => .error (err_resp 401 "jscode2session-resp-fail".toList e)
    | .ok code2sess_res =>
      let openid := code2sess_res.openid
      match env.b64_from_text code2sess_res.session_key with
      | .error e => .error (err_resp 500 "session-key-invalid-base64".toList e)
      | .ok session_key =>
        if session_key.length = 16 then
          let client_sess := env.authority.make_client_session app_info openid session_key
          .ok { openid := openid,
                stoken := joinColon ["ST1".toList, appid, openid, client_sess.sess_token],
                skey := client_sess.sess_key }
        else
          .error (err_resp 500 "session-key-invalid-base64".toList
            ("unexpected key len: ".toList ++ (Nat.repr session_key.length).toList))

/-- `WxLogin::authenticate` (lines 115–152 of `login.rs`): decode the session
token (first four fields of the colon split), check the `"ST1"` tag, resolve
the application, verify the client session with the Authority, and — only
when the configuration's `auth_sig` policy is on — propagate the upstream
signature result, decode it, check the `"SG1"` tag and verify the signature
with the staleness predicate `dur ≤ Duration::from_secs(cfg.sig_valid_secs)`
(durations in milliseconds here). -/
def authenticate (cfg : Config) (env : Env) (stoken uri : Str)
    (sig : Except Error Str) : Except Error WxLoginInfoInner :=
  match decodeFields stoken with
  | none => .error ("bad stoken format".toList)
  | some (tag, appid, openid, token_str) =>
    if tag = "ST1".toList then
      match lookupApp cfg.app_map appid with
      | none => .error ("appid not found".toList)
      | some app_info =>
        match env.authority.auth_client_session app_info openid token_str with
        | .error e => .error e
        | .ok secret =>
          if cfg.auth_sig then
            match sig with
            | .error e => .error e
            | .ok sig_str =>
              match decodeFields sig_str with
              | none => .error ("bad sig format".toList)
              | some (stag, ts_ms_str, nonce_str, sig_v) =>
                if stag = "SG1".toList then
                  match authClientSig env.authority app_info
                      (env.b64_to_text secret.client_sess_key) uri
                      ts_ms_str nonce_str sig_v
                      (fun dur _nonce => decide (dur ≤ cfg.sig_valid_secs * 1000)) with
                  | .error e => .error e
                  | .ok _ =>
                    .ok { appid := appid, openid := openid,
                          secret := secret, sig_authed := true }
                else .error ("bad sig tag:".toList ++ stag)
          else
            .ok { appid := appid, openid := openid,
                  secret := secret, sig_authed := false }
    else .error ("bad stoken tag:".toList ++ tag)

/-! ## Concrete fixtures (the spec's §8 scenario: appid `"wx001"`,
secret `"s3cr3t"`, provider openid `"u1"`) used by witnesses and
counterexamples. -/

/-- The configured application identity of the concrete scenario. -/
def appWx001 : AppInfo := { secret := "s3cr3t".toList }

/-- A configuration with one application and signature policy off. -/
def cfgNoSig : Config :=
  { app_map := [("wx001".toList, appWx001)], auth_sig := false, sig_valid_secs := 300 }

/-- A configuration with one application and signature policy on
(window 300 s, as in the spec's staleness example). -/
def cfgSig : Config :=
  { app_map := [("wx001".toList, appWx001)], auth_sig := true, sig_valid_secs := 300 }

/-- A concrete Authority: derivation and verification always succeed, the MAC
check passes, and the clock reads 1 000 000 000 ms. -/
def authorityT : AuthorityModel :=
  { make_client_session := fun _ _ _ => { sess_token := "tok".toList, sess_key := "skey".toList }
    auth_client_session := fun _ _ _ => .ok { client_sess_key := [1, 2, 3] }
    sig_verify := fun _ _ _ _ _ _ => true
    now_ms := 1000000000
    sig_fail_err := "auth sig check fail".toList }

/-- A concrete environment: the provider exchange succeeds with openid `"u1"`,
and the base64 codec decodes every text to sixteen zero bytes. -/
def envT : Env :=
  { exchange := fun _ _ _ =>
      .ok { session_key := "AAAAAAAAAAAAAAAAAAAAAA==".toList, openid := "u1".toList,
            unionid := none }
    b64_from_text := fun _ => .ok (List.replicate 16 0)
    b64_to_text := fun _ => "KEY".toList
    authority := authorityT }

/-- An environment whose base64 decoder yields three bytes (wrong length). -/
def envBadKey : Env := { envT with b64_from_text := fun _ => .ok [0, 1, 2] }

/-! ## Split/join lemmas for the colon-delimited wire format -/

/-- Splitting a delimiter-free string yields that single piece. -/
theorem splitColon_no_colon (t : Str) (h : ':' ∉ t) : splitColon t = [t] := by
  induction t with
  | nil => rfl
  | cons c rest ih =>
    have hc : c ≠ ':' := fun hc => h (hc ▸ List.mem_cons_self c rest)
    have hrest : ':' ∉ rest := fun hm => h (List.mem_cons_of_mem c hm)
    simp only [splitColon, if_neg hc, ih hrest]

/-- Splitting `a ++ ":" ++ rest` with `a` delimiter-free peels off `a`. -/
theorem splitColon_append (a rest : Str) (h : ':' ∉ a) :
    splitColon (a ++ ':' :: rest) = a :: splitColon rest := by
  induction a with
  | nil => simp [splitColon]
  | cons c a' ih =>
    have hc : c ≠ ':' := fun hc => h (hc ▸ List.mem_cons_self c a')
    have ha' : ':' ∉ a' := fun hm => h (List.mem_cons_of_mem c hm)
    simp only [List.cons_append, splitColon, if_neg hc, List.append_eq, ih ha']

/-- `next_tuple` finds nothing in a split with fewer than four pieces. -/
theorem nextTuple4_eq_none_of_length_lt (l : List Str) (h : l.length < 4) :
    nextTuple4 l = none := by
  match l with
  | [] => rfl
  | [_] => rfl
  | [_, _] => rfl
  | [_, _, _] => rfl
  | _ :: _ :: _ :: _ :: _ => simp at h; omega

/-! ## Behaviour of the embedding on the spec's concrete scenario -/

example : handle_login cfgNoSig envT ("wx001".toList) ("code1".toList) =
    .ok { openid := "u1".toList, stoken := "ST1:wx001:u1:tok".toList,
          skey := "skey".toList } := rfl

example : authenticate cfgNoSig envT ("ST1:wx001:u1:tok".toList) ("/u".toList)
    (.error ("no sig header".toList)) =
    .ok { appid := "wx001".toList, openid := "u1".toList,
          secret := { client_sess_key := [1, 2, 3] }, sig_authed := false } := rfl

example : authenticate cfgNoSig envT ("ST1:wx001:u1:tok:extra".toList) ("/u".toList)
    (.error []) =
    .ok { appid := "wx001".toList, openid := "u1".toList,
          secret := { client_sess_key := [1, 2, 3] }, sig_authed := false } := rfl

example : (authenticate cfgSig envT ("ST1:wx001:u1:tok".toList) ("/u".toList)
    (.ok ("SG1:999700000:n1:sv".toList))).isOk = true := by decide

example : authenticate cfgSig envT ("ST1:wx001:u1:tok".toList) ("/u".toList)
    (.ok ("SG1:999699999:n1:sv".toList)) = .error ("auth sig check fail".toList) := rfl

/-! ## Claim theorems -/

/-- C6: for every appid not present in the configuration map and for every
code, `handle_login` returns `Err` with status 401, code `"appid-not-found"`
and the fixed user-safe message constant; quantifying the conclusion over
every environment shows the provider exchange is never performed (the result
does not depend on it). -/
theorem handle_login_appid_not_found (cfg : Config) (appid : Str)
    (h : lookupApp cfg.app_map appid = none) :
    ∀ (env : Env) (code : Str), handle_login cfg env appid code =
      .error { status := 401, code := "appid-not-found".toList,
               message := LOGIN_FAIL_MSG, detail := [] } := by
  intro env code
  simp only [handle_login, h]

/-- Witness for `handle_login_appid_not_found` at appid `"zz"`. -/
theorem handle_login_appid_not_found_witness :
    lookupApp cfgNoSig.app_map ("zz".toList) = none ∧
    handle_login cfgNoSig envT ("zz".toList) ("c".toList) =
      .error { status := 401, code := "appid-not-found".toList,
               message := LOGIN_FAIL_MSG, detail := [] } :=
  ⟨by decide, handle_login_appid_not_found cfgNoSig ("zz".toList) (by decide) envT ("c".toList)⟩

/-- C7: whenever the provider's session-key string does not base64-decode to
exactly 16 bytes — because decoding fails or because the decoded length is
not 16 — `handle_login` returns `Err` with status 500 and code
`"session-key-invalid-base64"`; the single hypothesis covers both causes. -/
theorem handle_login_session_key_invalid (cfg : Config) (env : Env)
    (appid code : Str) (app_info : AppInfo) (res : Code2SessionResponse)
    (h1 : lookupApp cfg.app_map appid = some app_info)
    (h2 : env.exchange appid app_info.secret code = .ok res)
    (h3 : ∀ bytes, env.b64_from_text res.session_key = .ok bytes → bytes.length ≠ 16) :
    ∃ e, handle_login cfg env appid code = .error e ∧
      e.status = 500 ∧ e.code = "session-key-invalid-base64".toList := by
  cases hb : env.b64_from_text res.session_key with
  | error e =>
    refine ⟨err_resp 500 ("session-key-invalid-base64".toList) e, ?_, rfl, rfl⟩
    simp only [handle_login, h1, h2, hb]
  | ok bytes =>
    have hne := h3 bytes hb
    refine ⟨err_resp 500 ("session-key-invalid-base64".toList)
      ("unexpected key len: ".toList ++ (Nat.repr bytes.length).toList), ?_, rfl, rfl⟩
    simp only [handle_login, h1, h2, hb]
    rw [if_neg hne]

/-- Witness for `handle_login_session_key_invalid`: the decoded key has
length 3, so login fails with 500 / `"session-key-invalid-base64"`. -/
theorem handle_login_session_key_invalid_witness :
    ∃ e, handle_login cfgNoSig envBadKey ("wx001".toList) ("code1".toList) = .error e ∧
      e.status = 500 ∧ e.code = "session-key-invalid-base64".toList :=
  handle_login_session_key_invalid cfgNoSig envBadKey ("wx001".toList) ("code1".toList)
    appWx001
    { session_key := "AAAAAAAAAAAAAAAAAAAAAA==".toList, openid := "u1".toList, unionid := none }
    (by decide) rfl
    (fun bytes h => by
      have h' : ([0, 1, 2] : List Nat) = bytes := Except.ok.inj h
      subst h'
      decide)

/-- C1: when the appid is configured and the provider exchange succeeds with
a session key decoding to exactly 16 bytes, `handle_login` returns `Ok`, and
decoding the returned `stoken` with the session-token decoder yields the tag
`"ST1"` and the original appid and openid, provided appid, openid and the
Authority-produced token component contain no `':'`. -/
theorem handle_login_stoken_roundtrip (cfg : Config) (env : Env)
    (appid code : Str) (app_info : AppInfo) (res : Code2SessionResponse)
    (key : List Nat)
    (h1 : lookupApp cfg.app_map appid = some app_info)
    (h2 : env.exchange appid app_info.secret code = .ok res)
    (h3 : env.b64_from_text res.session_key = .ok key)
    (h4 : key.length = 16)
    (h5 : ':' ∉ appid) (h6 : ':' ∉ res.openid)
    (h7 : ':' ∉ (env.authority.make_client_session app_info res.openid key).sess_token) :
    ∃ out, handle_login cfg env appid code = .ok out ∧
      out.openid = res.openid ∧
      decodeFields out.stoken =
        some ("ST1".toList, appid, res.openid,
          (env.authority.make_client_session app_info res.openid key).sess_token) := by
  have hST : ':' ∉ "ST1".toList := by decide
  refine ⟨{ openid := res.openid,
            stoken := joinColon ["ST1".toList, appid, res.openid,
              (env.authority.make_client_session app_info res.openid key).sess_token],
            skey := (env.authority.make_client_session app_info res.openid key).sess_key },
          ?_, rfl, ?_⟩
  · simp only [handle_login, h1, h2, h3]
    rw [if_pos h4]
  · have hj : joinColon ["ST1".toList, appid, res.openid,
        (env.authority.make_client_session app_info res.openid key).sess_token] =
        "ST1".toList ++ ':' :: (appid ++ ':' :: (res.openid ++ ':' ::
          (env.authority.make_client_session app_info res.openid key).sess_token)) := rfl
    rw [hj, decodeFields, splitColon_append _ _ hST, splitColon_append _ _ h5,
        splitColon_append _ _ h6, splitColon_no_colon _ h7]
    rfl

/-- Witness for `handle_login_stoken_roundtrip` on the spec's §8 scenario
(appid `"wx001"`, openid `"u1"`). -/
theorem handle_login_stoken_roundtrip_witness :
    (List.replicate 16 (0 : Nat)).length = 16 ∧
    ∃ out, handle_login cfgNoSig envT ("wx001".toList) ("code1".toList) = .ok out ∧
      out.openid = "u1".toList ∧
      decodeFields out.stoken =
        some ("ST1".toList, "wx001".toList, "u1".toList,
          (envT.authority.make_client_session appWx001 ("u1".toList)
            (List.replicate 16 0)).sess_token) :=
  ⟨by decide,
   handle_login_stoken_roundtrip cfgNoSig envT ("wx001".toList) ("code1".toList)
     appWx001
     { session_key := "AAAAAAAAAAAAAAAAAAAAAA==".toList, openid := "u1".toList, unionid := none }
     (List.replicate 16 0) (by decide) rfl rfl (by decide)
     (by decide) (by decide) (by decide)⟩

/-- C5: for every stoken that splits into four fields whose tag is not
`"ST1"`, `authenticate` returns `Err` carrying the offending tag value; the
conclusion holds for every environment (hence for every Authority behaviour),
which is the pure-embedding rendering of "before any Authority operation is
invoked": no Authority construction or session verification can influence the
result. -/
theorem authenticate_bad_tag_no_authority (cfg : Config) (stoken uri : Str)
    (sig : Except Error Str) (tag appid openid tok : Str)
    (hd : decodeFields stoken = some (tag, appid, openid, tok))
    (ht : tag ≠ "ST1".toList) :
    ∀ env : Env, authenticate cfg env stoken uri sig =
      .error ("bad stoken tag:".toList ++ tag) := by
  intro env
  simp only [authenticate, hd]
  rw [if_neg ht]

/-- Witness for `authenticate_bad_tag_no_authority` at tag `"ST2"`. -/
theorem authenticate_bad_tag_no_authority_witness :
    decodeFields ("ST2:wx001:u1:tok".toList) =
      some ("ST2".toList, "wx001".toList, "u1".toList, "tok".toList) ∧
    authenticate cfgNoSig envT ("ST2:wx001:u1:tok".toList) ("/u".toList) (.error []) =
      .error ("bad stoken tag:".toList ++ "ST2".toList) :=
  ⟨by decide,
   authenticate_bad_tag_no_authority cfgNoSig ("ST2:wx001:u1:tok".toList) ("/u".toList)
     (.error []) ("ST2".toList) ("wx001".toList) ("u1".toList) ("tok".toList)
     (by decide) (by decide) envT⟩

/-- C8: under a signature-required policy, when the upstream signature
argument is an `Err` (the signature header was absent or unavailable), and
session verification has succeeded, `authenticate` returns `Err` propagating
that upstream error — a missing signature is a hard failure, never silently
skipped. -/
theorem authenticate_missing_sig_propagated (cfg : Config) (env : Env)
    (stoken uri : Str) (e : Error) (appid openid tok : Str)
    (app_info : AppInfo) (secret : Secret)
    (hs : cfg.auth_sig = true)
    (hd : decodeFields stoken = some ("ST1".toList, appid, openid, tok))
    (ha : lookupApp cfg.app_map appid = some app_info)
    (hv : env.authority.auth_client_session app_info openid tok = .ok secret) :
    authenticate cfg env stoken uri (.error e) = .error e := by
  simp only [authenticate, hd, ha, hv, hs, if_true]

/-- Witness for `authenticate_missing_sig_propagated` with the upstream error
`"no sig header"`. -/
theorem authenticate_missing_sig_propagated_witness :
    cfgSig.auth_sig = true ∧
    authenticate cfgSig envT ("ST1:wx001:u1:tok".toList) ("/u".toList)
      (.error ("no sig header".toList)) = .error ("no sig header".toList) :=
  ⟨rfl,
   authenticate_missing_sig_propagated cfgSig envT ("ST1:wx001:u1:tok".toList)
     ("/u".toList) ("no sig header".toList) ("wx001".toList) ("u1".toList) ("tok".toList)
     appWx001 { client_sess_key := [1, 2, 3] } rfl (by decide) (by decide) rfl⟩

/-- When the signature policy is off, `authenticate` reduces to the
signature-free pipeline: decode, tag check, application lookup, session
verification; shared normal form for the idempotence and
signature-independence claims. -/
theorem authenticate_noSig_eq (cfg : Config) (env : Env) (stoken uri : Str)
    (sig : Except Error Str) (hs : cfg.auth_sig = false) :
    authenticate cfg env stoken uri sig =
      match decodeFields stoken with
      | none => .error ("bad stoken format".toList)
      | some (tag, appid, openid, token_str) =>
        if tag = "ST1".toList then
          match lookupApp cfg.app_map appid with
          | none => .error ("appid not found".toList)
          | some app_info =>
            match env.authority.auth_client_session app_info openid token_str with
            | .error e => .error e
            | .ok secret =>
              .ok { appid := appid, openid := openid,
                    secret := secret, sig_authed := false }
        else .error ("bad stoken tag:".toList ++ tag) := by
  simp only [authenticate, hs, Bool.false_eq_true, if_false]

/-- C10: when the signature-required flag is off, the result of
`authenticate` is completely independent of the `sig` argument: any two
values of `sig` (including any `Err`) give the same result. -/
theorem authenticate_independent_of_sig (cfg : Config) (env : Env)
    (stoken uri : Str) (sig1 sig2 : Except Error Str)
    (hs : cfg.auth_sig = false) :
    authenticate cfg env stoken uri sig1 = authenticate cfg env stoken uri sig2 := by
  rw [authenticate_noSig_eq cfg env stoken uri sig1 hs,
      authenticate_noSig_eq cfg env stoken uri sig2 hs]

/-- Witness for `authenticate_independent_of_sig`: an `Ok` signature and an
upstream-error signature give the same result. -/
theorem authenticate_independent_of_sig_witness :
    cfgNoSig.auth_sig = false ∧
    authenticate cfgNoSig envT ("ST1:wx001:u1:tok".toList) ("/u".toList)
      (.ok ("SG1:1:n:s".toList)) =
    authenticate cfgNoSig envT ("ST1:wx001:u1:tok".toList) ("/u".toList)
      (.error ("no sig header".toList)) :=
  ⟨rfl,
   authenticate_independent_of_sig cfgNoSig envT ("ST1:wx001:u1:tok".toList)
     ("/u".toList) (.ok ("SG1:1:n:s".toList)) (.error ("no sig header".toList)) rfl⟩

/-- C9: under a policy without signature requirement, repeated calls to
`authenticate` with the same stoken, uri and configuration yield identical
results — the result depends on the environment only through the Authority's
session verification (in particular not on the clock), and any success
carries `sig_authed = false`. -/
theorem authenticate_idempotent_without_sig (cfg : Config) (env env' : Env)
    (stoken uri : Str) (sig : Except Error Str)
    (hs : cfg.auth_sig = false)
    (he : env'.authority.auth_client_session = env.authority.auth_client_session) :
    authenticate cfg env' stoken uri sig = authenticate cfg env stoken uri sig ∧
    ∀ info, authenticate cfg env stoken uri sig = .ok info → info.sig_authed = false := by
  constructor
  · rw [authenticate_noSig_eq cfg env' stoken uri sig hs,
        authenticate_noSig_eq cfg env stoken uri sig hs, he]
  · intro info hinfo
    rw [authenticate_noSig_eq cfg env stoken uri sig hs] at hinfo
    split at hinfo
    · exact absurd hinfo (by simp)
    · split at hinfo
      · split at hinfo
        · exact absurd hinfo (by simp)
        · split at hinfo
          · exact absurd hinfo (by simp)
          · have h' := Except.ok.inj hinfo
            rw [← h']
      · exact absurd hinfo (by simp)

/-- Witness for `authenticate_idempotent_without_sig`: a second environment
differing in clock and MAC check gives the same result, and the success
carries `sig_authed = false`. -/
theorem authenticate_idempotent_without_sig_witness :
    cfgNoSig.auth_sig = false ∧
    (authenticate cfgNoSig
        { envT with authority := { authorityT with now_ms := 77, sig_verify := fun _ _ _ _ _ _ => false } }
        ("ST1:wx001:u1:tok".toList) ("/u".toList) (.error []) =
      authenticate cfgNoSig envT ("ST1:wx001:u1:tok".toList) ("/u".toList) (.error []) ∧
     ∀ info, authenticate cfgNoSig envT ("ST1:wx001:u1:tok".toList) ("/u".toList)
        (.error []) = .ok info → info.sig_authed = false) :=
  ⟨rfl,
   authenticate_idempotent_without_sig cfgNoSig envT
     { envT with authority := { authorityT with now_ms := 77, sig_verify := fun _ _ _ _ _ _ => false } }
     ("ST1:wx001:u1:tok".toList) ("/u".toList) (.error []) rfl rfl⟩

/-- C2 (counterexample to the claim as stated): a session token whose colon
split yields five fields is *not* rejected — `authenticate` succeeds, using
the first four fields and ignoring the fifth — contradicting "more than four
fields … is rejected as a structural error and authenticate returns Err". -/
theorem authenticate_five_fields_accepted :
    (splitColon ("ST1:wx001:u1:tok:extra".toList)).length = 5 ∧
    (authenticate cfgNoSig envT ("ST1:wx001:u1:tok:extra".toList) ("/u".toList)
      (.error [])).isOk = true := by
  constructor
  · decide
  · decide

/-- C2 (amended): decoding takes the *first four* fields of the colon split —
a string with fewer than four fields is a structural error (`"bad stoken
format"` on the session-token path, `"bad sig format"` on the signature path)
and `authenticate` returns `Err`, while a split with four or more fields is
accepted structurally with the first four fields used (extras ignored, empty
fields not rejected). -/
theorem authenticate_lt_four_fields_rejected (cfg : Config) (env : Env)
    (stoken uri : Str) (sig : Except Error Str) :
    ((splitColon stoken).length < 4 →
      decodeFields stoken = none ∧
      authenticate cfg env stoken uri sig = .error ("bad stoken format".toList)) ∧
    (∀ a b c d rest, splitColon stoken = a :: b :: c :: d :: rest →
      decodeFields stoken = some (a, b, c, d)) ∧
    (∀ appid openid tok app_info secret sig_str,
      cfg.auth_sig = true →
      decodeFields stoken = some ("ST1".toList, appid, openid, tok) →
      lookupApp cfg.app_map appid = some app_info →
      env.authority.auth_client_session app_info openid tok = .ok secret →
      sig = .ok sig_str →
      (splitColon sig_str).length < 4 →
      authenticate cfg env stoken uri sig = .error ("bad sig format".toList)) := by
  refine ⟨?_, ?_, ?_⟩
  · intro h
    have hd : decodeFields stoken = none := by
      unfold decodeFields
      exact nextTuple4_eq_none_of_length_lt _ h
    exact ⟨hd, by simp only [authenticate, hd]⟩
  · intro a b c d rest h
    unfold decodeFields
    rw [h]
    rfl
  · intro appid openid tok app_info secret sig_str hs hd ha hv hg hlen
    have hgd : decodeFields sig_str = none := by
      unfold decodeFields
      exact nextTuple4_eq_none_of_length_lt _ hlen
    subst hg
    simp only [authenticate, hd, ha, hv, hs, if_true, hgd]

/-- Witness for `authenticate_lt_four_fields_rejected` at the three-field
string `"ST1:wx001:u1"`. -/
theorem authenticate_lt_four_fields_rejected_witness :
    decodeFields ("ST1:wx001:u1".toList) = none ∧
    authenticate cfgNoSig envT ("ST1:wx001:u1".toList) ("/u".toList) (.error []) =
      .error ("bad stoken format".toList) :=
  (authenticate_lt_four_fields_rejected cfgNoSig envT ("ST1:wx001:u1".toList)
    ("/u".toList) (.error [])).1 (by decide)

/-- C3: any two failing `authenticate` calls — whichever check failed — are
reported to the client with the same fixed message (`clientAuthErrMessage`,
modelled from the spec's uniform-reporting rule: the middleware layer that
renders the opaque `Error` to the client is not among the files under
study). -/
theorem authenticate_client_report_uniform (cfg cfg' : Config) (env env' : Env)
    (s1 u1 s2 u2 : Str) (g1 g2 : Except Error Str) (e1 e2 : Error)
    (h1 : authenticate cfg env s1 u1 g1 = .error e1)
    (h2 : authenticate cfg' env' s2 u2 g2 = .error e2) :
    clientAuthErrMessage e1 = clientAuthErrMessage e2 := rfl

/-- Witness for `authenticate_client_report_uniform`: a structural failure
and a tag failure are reported with the same client message. -/
theorem authenticate_client_report_uniform_witness :
    authenticate cfgNoSig envT ("garbage".toList) ("/u".toList) (.error []) =
      .error ("bad stoken format".toList) ∧
    authenticate cfgNoSig envT ("ST2:wx001:u1:tok".toList) ("/u".toList) (.error []) =
      .error ("bad stoken tag:ST2".toList) ∧
    clientAuthErrMessage ("bad stoken format".toList) =
      clientAuthErrMessage ("bad stoken tag:ST2".toList) :=
  ⟨rfl, rfl,
   authenticate_client_report_uniform cfgNoSig cfgNoSig envT envT
     ("garbage".toList) ("/u".toList) ("ST2:wx001:u1:tok".toList) ("/u".toList)
     (.error []) (.error []) ("bad stoken format".toList) ("bad stoken tag:ST2".toList)
     rfl rfl⟩

/-- C4: under a signature-required policy, a signature token whose embedded
millisecond timestamp is older than the configured validity window is
rejected: `authenticate` returns `Err` even when the MAC check itself would
pass (the conclusion holds whatever `sig_verify` returns). -/
theorem authenticate_stale_sig_rejected (cfg : Config) (env : Env)
    (stoken uri : Str) (appid openid tok : Str) (app_info : AppInfo)
    (secret : Secret) (sig_str ts_ms_str nonce_str sig_v : Str) (ts : Nat)
    (hs : cfg.auth_sig = true)
    (hd : decodeFields stoken = some ("ST1".toList, appid, openid, tok))
    (ha : lookupApp cfg.app_map appid = some app_info)
    (hv : env.authority.auth_client_session app_info openid tok = .ok secret)
    (hg : decodeFields sig_str = some ("SG1".toList, ts_ms_str, nonce_str, sig_v))
    (hts : parseNatDec ts_ms_str = some ts)
    (hstale : cfg.sig_valid_secs * 1000 < env.authority.now_ms - ts) :
    authenticate cfg env stoken uri (.ok sig_str) =
      .error env.authority.sig_fail_err := by
  have hcheck : decide (env.authority.now_ms - ts ≤ cfg.sig_valid_secs * 1000) = false :=
    decide_eq_false (Nat.not_le.mpr hstale)
  simp only [authenticate, hd, ha, hv, hs, if_true, hg, authClientSig, hts, hcheck,
    Bool.and_false, Bool.false_eq_true, if_false]

/-- Witness for `authenticate_stale_sig_rejected` on the spec's example:
window 300 s, timestamp 600 s older than the clock. -/
theorem authenticate_stale_sig_rejected_witness :
    cfgSig.sig_valid_secs * 1000 < envT.authority.now_ms - 999400000 ∧
    authenticate cfgSig envT ("ST1:wx001:u1:tok".toList) ("/u".toList)
      (.ok ("SG1:999400000:n1:sv".toList)) = .error envT.authority.sig_fail_err :=
  ⟨by decide,
   authenticate_stale_sig_rejected cfgSig envT ("ST1:wx001:u1:tok".toList)
     ("/u".toList) ("wx001".toList) ("u1".toList) ("tok".toList) appWx001
     { client_sess_key := [1, 2, 3] } ("SG1:999400000:n1:sv".toList)
     ("999400000".toList) ("n1".toList) ("sv".toList) 999400000
     rfl (by decide) (by decide) rfl (by decide) (by decide) (by decide)⟩
